import Mathlib

/-!
Shallow embedding of the HTTP range-request streaming responder of
`web.py` (routes `partial_response`, `full_response`, `stream_video`,
`save_json_file`, and the inline Range-header parsing of `stream_video`,
lines 395-425), shared near-identically by `web_iterations/iter_8.py`.

Bytes of a file are modelled as `List Nat`; a Python binary file object
is a `FileHandle` (contents, cursor, closed flag).  Python `int`s are
`Int` where sign matters (the `remaining` counter of the generators can
go negative), `Nat` where the source guarantees non-negativity.
-/

namespace VideoStreamer

/-- Python binary file object: immutable byte contents, a read cursor
(`seek`/`read` move it), and a `closed` flag.  `open(path, 'rb')`
creates a handle with `pos = 0`, `closed = false`.  The streaming code
of `web.py` contains no `close()` call, so nothing in this development
sets `closed`. -/
structure FileHandle where
  data : List Nat
  pos : Nat
  closed : Bool
deriving Repr, DecidableEq

/-- Python `file.read(n)`: for `n >= 0` return up to `n` bytes from the
cursor, for `n < 0` return everything up to EOF; the cursor advances by
the number of bytes returned. -/
def readF (h : FileHandle) (n : Int) : List Nat × FileHandle :=
  let d := if n < 0 then h.data.drop h.pos else (h.data.drop h.pos).take n.toNat
  (d, { h with pos := h.pos + d.length })

/-- Configuration constants of `web.py` (`class Config`). -/
def Config.CHUNK_SIZE : Nat := 1024 * 1024

/-- Cache max-age of `web.py` (`Config.MAX_CACHE_AGE`). -/
def Config.MAX_CACHE_AGE : Nat := 86400

/-- The chunk loop shared by `partial_response.generate` and
`full_response.generate` of `web.py`:

    while remaining:
        chunk = min(chunk_size, remaining)
        data = file.read(chunk)
        if not data:
            break
        remaining -= len(data)
        yield data

`fuel` is an upper bound on the number of loop iterations used to make
the recursion structural; every call below supplies
`h.data.length + 1`, which is sufficient because each productive
iteration advances the cursor by at least one byte (the stabilisation
theorem for claim C9 proves fuel-independence beyond this bound).
Returns the yielded chunks and the file handle after the loop. -/
def generateAux (cs : Nat) : Nat → Int → FileHandle → List (List Nat) × FileHandle
  | 0, _, h => ([], h)
  | fuel + 1, remaining, h =>
    if remaining = 0 then ([], h)
    else
      let dh := readF h (min (cs : Int) remaining)
      if dh.1 = [] then ([], dh.2)
      else
        let rest := generateAux cs fuel (remaining - dh.1.length) dh.2
        (dh.1 :: rest.1, rest.2)

/-- A Flask `Response` as built by `partial_response`/`full_response`:
status, the header dictionary's entries, the produced body chunks, and
the state of the file handle once the lazy body has been exhausted. -/
structure PyResponse where
  body : List (List Nat)
  fileAfter : FileHandle
  status : Nat
  contentType : String
  acceptRanges : String
  contentRange : Option String
  contentLength : Int
  cacheControl : String

/-- `partial_response(file, start, end, total, chunk_size, mime_type)`
of `web.py` lines 198-222: seek to `start`, stream
`remaining = end - start + 1` bytes in chunks, answer 206 with
`Content-Range: bytes {start}-{end}/{total}` and
`Content-Length: end - start + 1`. -/
def partial_response (file : FileHandle) (start : Nat) (end_ : Int)
    (total : Nat) (chunk_size : Nat) (mime_type : String) : PyResponse :=
  let seeked : FileHandle := { file with pos := start }
  let run := generateAux chunk_size (seeked.data.length + 1) (end_ - (start : Int) + 1) seeked
  { body := run.1
    fileAfter := run.2
    status := 206
    contentType := mime_type
    acceptRanges := "bytes"
    contentRange := some ("bytes " ++ toString start ++ "-" ++ toString end_
      ++ "/" ++ toString total)
    contentLength := end_ - (start : Int) + 1
    cacheControl := "public, max-age=" ++ toString Config.MAX_CACHE_AGE }

/-- `full_response(file, total, chunk_size, mime_type)` of `web.py`
lines 224-246: stream `remaining = total` bytes from the handle's
current position (position 0 for the freshly opened handle of
`stream_video`), answer 200 with `Content-Length: total`. -/
def full_response (file : FileHandle) (total : Nat) (chunk_size : Nat)
    (mime_type : String) : PyResponse :=
  let run := generateAux chunk_size (file.data.length + 1) (total : Int) file
  { body := run.1
    fileAfter := run.2
    status := 200
    contentType := mime_type
    acceptRanges := "bytes"
    contentRange := none
    contentLength := (total : Int)
    cacheControl := "public, max-age=" ++ toString Config.MAX_CACHE_AGE }

/-- Python `s.replace(pat, rep)` on character lists (all non-overlapping
occurrences, scanning left to right).  `fuel` bounds the recursion at
the input length, which is always enough since each step consumes at
least one character when `pat` is nonempty. -/
def pyReplaceAux (pat rep : List Char) : Nat → List Char → List Char
  | 0, s => s
  | _, [] => []
  | fuel + 1, x :: xs =>
    if (x :: xs).take pat.length = pat ∧ pat ≠ [] then
      rep ++ pyReplaceAux pat rep fuel ((x :: xs).drop pat.length)
    else
      x :: pyReplaceAux pat rep fuel xs

/-- Python `s.replace(pat, rep)` (character-list model). -/
def pyReplace (s pat rep : List Char) : List Char :=
  pyReplaceAux pat rep s.length s

/-- Python `s.split(c)` for a single-character separator: splits at
every occurrence, keeping empty pieces (so `''.split('-') == ['']` and
`'10-'.split('-') == ['10', '']`). -/
def pySplit (c : Char) : List Char → List (List Char)
  | [] => [[]]
  | x :: xs =>
    match pySplit c xs with
    | [] => [[x]]
    | g :: gs => if x = c then [] :: g :: gs else (x :: g) :: gs

/-- Tail of Python's `int()` digit grammar after a leading digit
(PEP 515): `('_'? digit)*` — underscores only singly and only between
digits, so `1_0` parses but `1_`, `_1` and `1__0` raise. -/
def pyDigitsTail : List Char → Bool
  | [] => true
  | '_' :: c :: r => c.isDigit && pyDigitsTail r
  | ['_'] => false
  | c :: r => c.isDigit && pyDigitsTail r

/-- Python `int(s)` on the strings reachable from `stream_video`'s
Range parsing: pieces of a `split('-')` never contain the character
`'-'`, so only an optional `'+'` sign can precede the digits and the
result is never negative; `int` strips surrounding whitespace, allows
single underscores between digits (PEP 515, ignored in the value), and
raises `ValueError` (here `none`) otherwise.  ASCII model: `int()`'s
additional acceptance of non-ASCII digit characters and exotic Unicode
whitespace is not modelled, and no theorem below quantifies over the
parse-failure set, so this narrowing is never load-bearing. -/
def pyInt (s : List Char) : Option Nat :=
  let t := ((s.dropWhile Char.isWhitespace).reverse.dropWhile Char.isWhitespace).reverse
  let t := match t with
    | '+' :: r => r
    | _ => t
  match t with
  | [] => none
  | c :: r =>
    if c.isDigit && pyDigitsTail r then
      some (((c :: r).filter (fun ch => ch != '_')).foldl
        (fun a ch => a * 10 + (ch.toNat - 48)) 0)
    else
      none

/-- The inline Range-header parsing of `stream_video` (`web.py` lines
416-418):

    byte_start, byte_end = range_header.replace('bytes=', '').split('-')
    byte_start = int(byte_start)
    byte_end = min(int(byte_end) if byte_end else total_size - 1, total_size - 1)

`none` models a `ValueError` escaping (wrong number of `'-'`-separated
pieces for the 2-tuple unpacking, or a non-numeric piece), which the
route's catch-all `except` turns into a 500 response. -/
def parseRange (range_header : String) (total_size : Nat) : Option (Nat × Int) :=
  match pySplit '-' (pyReplace range_header.toList "bytes=".toList []) with
  | [s, e] =>
    match pyInt s with
    | none => none
    | some byte_start =>
      match (if e = [] then some ((total_size : Int) - 1)
             else (pyInt e).map (fun n => (n : Int))) with
      | none => none
      | some b => some (byte_start, min b ((total_size : Int) - 1))
  | _ => none

/-- The JSON files the app keeps next to itself: `watch_history.json`
as an association list (a JSON object, insertion-ordered like a Python
dict), and the raw contents of `comments.json` / `playlists.json`,
which `stream_video` never touches. -/
structure Disk where
  watch_history : List (String × String)
  comments_file : String
  playlists_file : String

/-- Python `history[filename] = value` on the insertion-ordered
dictionary: replace in place if the key exists, append otherwise. -/
def dictSet : List (String × String) → String → String → List (String × String)
  | [], k, v => [(k, v)]
  | (k', v') :: rest, k, v =>
    if k' = k then (k, v) :: rest else (k', v') :: dictSet rest k v

/-- Outcome of the `/video/<filename>` route: the 404 branch, a
streaming `Response`, or the catch-all `except Exception` branch
(a 500 with a JSON error body). -/
inductive StreamOutcome where
  | notFound : StreamOutcome
  | streamed : PyResponse → StreamOutcome
  | errorCaught : StreamOutcome

/-- `stream_video(filename)` of `web.py` lines 395-425.  Inputs that
the route obtains from its environment are parameters: `fileData` is
`some` of the file's bytes when `video_path.exists()` (its length is
the `os.stat` size used as `total_size`), `now` is
`datetime.now().isoformat()`, `mime_type` comes from
`get_video_info`, and `writeOk` tells whether the
`save_json_file(WATCH_HISTORY_FILE, ...)` write succeeds (its
exceptions are caught and logged inside `save_json_file`, so a failed
write leaves the file unchanged and the route continues).  The source
guards the range path with `if range_header:` — Python string
truthiness — so both an absent header (`None`, here `none`) and a
present-but-empty one (`""`) take the full-body path.  Returns the
outcome and the disk state after the history update. -/
def stream_video (disk : Disk) (fileData : Option (List Nat))
    (filename now mime_type : String) (writeOk : Bool)
    (range_header : Option String) : StreamOutcome × Disk :=
  match fileData with
  | none => (StreamOutcome.notFound, disk)
  | some data =>
    let history := dictSet disk.watch_history filename now
    let disk := if writeOk then { disk with watch_history := history } else disk
    let total_size := data.length
    let file : FileHandle := { data := data, pos := 0, closed := false }
    match range_header with
    | some h =>
      if h = "" then
        (StreamOutcome.streamed
          (full_response file total_size Config.CHUNK_SIZE mime_type), disk)
      else
        match parseRange h total_size with
        | some (byte_start, byte_end) =>
          (StreamOutcome.streamed
            (partial_response file byte_start byte_end total_size
              Config.CHUNK_SIZE mime_type), disk)
        | none => (StreamOutcome.errorCaught, disk)
    | none =>
      (StreamOutcome.streamed
        (full_response file total_size Config.CHUNK_SIZE mime_type), disk)

/-- Status code of a streamed outcome (`none` for 404/500 branches,
whose statuses are not part of a `PyResponse`). -/
def outStatus : StreamOutcome → Option Nat
  | StreamOutcome.streamed r => some r.status
  | _ => none

/-- Content-Range header of a streamed outcome. -/
def outContentRange : StreamOutcome → Option String
  | StreamOutcome.streamed r => r.contentRange
  | _ => none

/-- Concatenated body bytes of a streamed outcome. -/
def outBodyJoin : StreamOutcome → Option (List Nat)
  | StreamOutcome.streamed r => some r.body.flatten
  | _ => none

/-- Closed flag of the response's file handle after body exhaustion. -/
def outFileClosed : StreamOutcome → Option Bool
  | StreamOutcome.streamed r => some r.fileAfter.closed
  | _ => none

/-- True exactly on the catch-all `except Exception` branch (HTTP 500). -/
def outIsError : StreamOutcome → Bool
  | StreamOutcome.errorCaught => true
  | _ => false

/-! ## Basic facts about `readF` (Python `file.read`) -/

theorem readF_snd_data (h : FileHandle) (n : Int) : (readF h n).2.data = h.data := rfl

theorem readF_snd_closed (h : FileHandle) (n : Int) : (readF h n).2.closed = h.closed := rfl

theorem readF_snd_pos (h : FileHandle) (n : Int) :
    (readF h n).2.pos = h.pos + (readF h n).1.length := rfl

theorem readF_fst_nonneg (h : FileHandle) (n : Int) (hn : 0 ≤ n) :
    (readF h n).1 = (h.data.drop h.pos).take n.toNat := by
  simp [readF, not_lt.mpr hn]

theorem readF_fst_subset_len (h : FileHandle) (n : Int) :
    (readF h n).1.length ≤ h.data.length - h.pos := by
  simp only [readF]
  split
  · simp
  · calc ((h.data.drop h.pos).take n.toNat).length
        ≤ (h.data.drop h.pos).length := List.length_take_le' _ _
      _ = h.data.length - h.pos := List.length_drop _ _

/-! ## The chunk loop: EOF behaviour, handle evolution, fuel
independence, and the content it produces -/

/-- With the cursor at or past EOF every `read` returns nothing, so the
loop yields no chunks and leaves the handle untouched, whatever the
`remaining` counter says. -/
theorem generateAux_eof (cs fuel : Nat) (r : Int) (h : FileHandle)
    (hp : h.data.length ≤ h.pos) : generateAux cs fuel r h = ([], h) := by
  cases fuel with
  | zero => rfl
  | succ n =>
    have hd : h.data.drop h.pos = [] := List.drop_eq_nil_of_le hp
    simp [generateAux, readF, hd]

/-- The loop never changes the file's contents or its `closed` flag,
and moves the cursor forward by exactly the number of bytes yielded. -/
theorem generateAux_handle (cs : Nat) : ∀ (fuel : Nat) (r : Int) (h : FileHandle),
    (generateAux cs fuel r h).2.data = h.data ∧
    (generateAux cs fuel r h).2.closed = h.closed ∧
    (generateAux cs fuel r h).2.pos = h.pos + (generateAux cs fuel r h).1.flatten.length := by
  intro fuel
  induction fuel with
  | zero => intro r h; simp [generateAux]
  | succ n ih =>
    intro r h
    by_cases hr : r = 0
    · simp [generateAux, hr]
    · by_cases hd : (readF h (min (cs : Int) r)).1 = []
      · simp [generateAux, hr, hd, readF_snd_data, readF_snd_closed, readF_snd_pos]
      · have step := ih (r - (readF h (min (cs : Int) r)).1.length)
          (readF h (min (cs : Int) r)).2
        simp only [generateAux, hr, if_false, hd, readF_snd_data, readF_snd_closed,
          readF_snd_pos] at step ⊢
        refine ⟨step.1, step.2.1, ?_⟩
        rw [step.2.2]
        simp [List.flatten_cons, List.length_append]
        omega

/-- Any fuel of at least `h.data.length + 1 - h.pos` gives the same
result: the loop genuinely stops within that many iterations, because
each productive read advances the cursor and the cursor never passes
EOF. -/
theorem generateAux_fuel_indep (cs : Nat) : ∀ (f₁ f₂ : Nat) (r : Int) (h : FileHandle),
    h.data.length + 1 - h.pos ≤ f₁ → h.data.length + 1 - h.pos ≤ f₂ →
    generateAux cs f₁ r h = generateAux cs f₂ r h := by
  intro f₁
  induction f₁ with
  | zero =>
    intro f₂ r h h1 h2
    have hp : h.data.length ≤ h.pos := by omega
    rw [generateAux_eof cs 0 r h hp, generateAux_eof cs f₂ r h hp]
  | succ a ih =>
    intro f₂ r h h1 h2
    cases f₂ with
    | zero =>
      have hp : h.data.length ≤ h.pos := by omega
      rw [generateAux_eof _ _ _ _ hp, generateAux_eof _ _ _ _ hp]
    | succ b =>
      by_cases hr : r = 0
      · simp [generateAux, hr]
      · by_cases hd : (readF h (min (cs : Int) r)).1 = []
        · simp [generateAux, hr, hd]
        · have hlen : 1 ≤ (readF h (min (cs : Int) r)).1.length :=
            List.length_pos.mpr hd
          have hdl : (readF h (min (cs : Int) r)).1.length ≤ h.data.length - h.pos :=
            readF_fst_subset_len h _
          have key := ih b (r - (readF h (min (cs : Int) r)).1.length)
            (readF h (min (cs : Int) r)).2
            (by rw [readF_snd_data, readF_snd_pos]; omega)
            (by rw [readF_snd_data, readF_snd_pos]; omega)
          simp only [generateAux, hr, if_false, hd]
          rw [key]

/-- What the loop yields, concatenated: with a positive chunk size, a
non-negative `remaining` counter and enough fuel, the chunks
concatenate to exactly the next `remaining` bytes after the cursor
(fewer only if EOF intervenes, in which case `take` is truncated the
same way). -/
theorem generateAux_flatten (cs : Nat) (hcs : 1 ≤ cs) :
    ∀ (fuel : Nat) (r : Int) (h : FileHandle), 0 ≤ r →
    h.data.length + 1 - h.pos ≤ fuel →
    (generateAux cs fuel r h).1.flatten = (h.data.drop h.pos).take r.toNat := by
  intro fuel
  induction fuel with
  | zero =>
    intro r h hr hf
    have hnil : h.data.drop h.pos = [] := List.drop_eq_nil_of_le (by omega)
    simp [generateAux, hnil]
  | succ n ih =>
    intro r h hr hf
    by_cases hrz : r = 0
    · simp [generateAux, hrz]
    · have hrpos : 0 < r := lt_of_le_of_ne hr (Ne.symm hrz)
      have hchunk1 : 1 ≤ min (cs : Int) r := le_min (by exact_mod_cast hcs) hrpos
      have hdval : (readF h (min (cs : Int) r)).1
          = (h.data.drop h.pos).take (min (cs : Int) r).toNat :=
        readF_fst_nonneg h _ (by omega)
      by_cases hd : (readF h (min (cs : Int) r)).1 = []
      · have hnil : h.data.drop h.pos = [] := by
          cases hl : h.data.drop h.pos with
          | nil => rfl
          | cons x xs =>
            rw [hl] at hdval
            rw [hdval] at hd
            have hk : 1 ≤ (min (cs : Int) r).toNat := by omega
            cases hc : (min (cs : Int) r).toNat with
            | zero => omega
            | succ m => simp [hc] at hd
        simp [generateAux, hrz, hd, hnil]
      · have hlen1 : 1 ≤ (readF h (min (cs : Int) r)).1.length :=
          List.length_pos.mpr hd
        have hdtake : (readF h (min (cs : Int) r)).1.length ≤ (min (cs : Int) r).toNat := by
          rw [hdval]; exact List.length_take_le _ _
        have hdl : (readF h (min (cs : Int) r)).1.length ≤ h.data.length - h.pos :=
          readF_fst_subset_len h _
        have hrest := ih (r - (readF h (min (cs : Int) r)).1.length)
          (readF h (min (cs : Int) r)).2
          (by omega)
          (by rw [readF_snd_data, readF_snd_pos]; omega)
        rw [readF_snd_data, readF_snd_pos] at hrest
        simp only [generateAux, hrz, if_false, hd, List.flatten_cons]
        rw [hrest]
        have hdlr : ((readF h (min (cs : Int) r)).1.length : Int) ≤ r := by omega
        have htn : (r - ((readF h (min (cs : Int) r)).1.length : Int)).toNat
            = r.toNat - (readF h (min (cs : Int) r)).1.length := by omega
        rw [htn]
        have hdd : h.data.drop (h.pos + (readF h (min (cs : Int) r)).1.length)
            = (h.data.drop h.pos).drop (readF h (min (cs : Int) r)).1.length := by
          rw [List.drop_drop]
        rw [hdd]
        have htk : (h.data.drop h.pos).take (readF h (min (cs : Int) r)).1.length
            = (readF h (min (cs : Int) r)).1 := by
          rw [hdval, List.length_take]
          rcases le_total (min (cs : Int) r).toNat (h.data.drop h.pos).length with hle | hle
          · rw [min_eq_left hle]
          · rw [min_eq_right hle, List.take_length, List.take_of_length_le hle]
        calc (readF h (min (cs : Int) r)).1
              ++ ((h.data.drop h.pos).drop (readF h (min (cs : Int) r)).1.length).take
                (r.toNat - (readF h (min (cs : Int) r)).1.length)
            = (h.data.drop h.pos).take (readF h (min (cs : Int) r)).1.length
              ++ ((h.data.drop h.pos).drop (readF h (min (cs : Int) r)).1.length).take
                (r.toNat - (readF h (min (cs : Int) r)).1.length) := by rw [htk]
          _ = (h.data.drop h.pos).take
                ((readF h (min (cs : Int) r)).1.length
                  + (r.toNat - (readF h (min (cs : Int) r)).1.length)) := by
              rw [List.take_add]
          _ = (h.data.drop h.pos).take r.toNat := by
              congr 1
              omega

/-! ## History update (`dictSet`) and the disk effect of `stream_video` -/

theorem dictSet_lookup_self (m : List (String × String)) (k v : String) :
    List.lookup k (dictSet m k v) = some v := by
  induction m with
  | nil => simp [dictSet, List.lookup]
  | cons p rest ih =>
    obtain ⟨k', v'⟩ := p
    by_cases hk : k' = k
    · simp [dictSet, hk, List.lookup]
    · have hb : (k == k') = false := beq_eq_false_iff_ne.mpr (Ne.symm hk)
      simp [dictSet, hk, List.lookup, hb, ih]

theorem dictSet_lookup_ne (m : List (String × String)) (k f v : String) (hk : k ≠ f) :
    List.lookup k (dictSet m f v) = List.lookup k m := by
  have hb : (k == f) = false := beq_eq_false_iff_ne.mpr hk
  induction m with
  | nil => simp [dictSet, List.lookup, hb]
  | cons p rest ih =>
    obtain ⟨k', v'⟩ := p
    by_cases hf : k' = f
    · subst hf
      simp [dictSet, List.lookup, hb]
    · simp [dictSet, hf, List.lookup, ih]

theorem stream_video_disk (disk : Disk) (data : List Nat) (fn now mime : String)
    (wOk : Bool) (rh : Option String) :
    (stream_video disk (some data) fn now mime wOk rh).2
      = if wOk then { disk with watch_history := dictSet disk.watch_history fn now }
        else disk := by
  cases rh with
  | none => rfl
  | some h =>
    by_cases he : h = ""
    · simp [stream_video, he]
    · rcases hps : parseRange h data.length with _ | ⟨bs, be⟩ <;>
        simp [stream_video, he, hps]

theorem stream_video_fst_wOk (disk : Disk) (data : List Nat) (fn now mime : String)
    (wOk : Bool) (rh : Option String) :
    (stream_video disk (some data) fn now mime wOk rh).1
      = (stream_video disk (some data) fn now mime true rh).1 := by
  cases rh with
  | none => rfl
  | some h =>
    by_cases he : h = ""
    · simp [stream_video, he]
    · rcases hps : parseRange h data.length with _ | ⟨bs, be⟩ <;>
        simp [stream_video, he, hps]

end VideoStreamer

namespace VideoStreamer

/-- Claim C2: for every `byte_size > 0` and every range with
`0 <= start <= end <= byte_size - 1`, the partial response has status
206, a `Content-Range: bytes {start}-{end}/{byte_size}` header,
`Content-Length = end - start + 1`, and its body chunks concatenated
equal exactly bytes `[start, end]` of the source. -/
theorem partial_response_correct (data : List Nat) (start end_ cs : Nat)
    (mime : String) (hcs : 1 ≤ cs) (hse : start ≤ end_) (hlt : end_ < data.length) :
    (partial_response ⟨data, 0, false⟩ start (end_ : Int) data.length cs mime).status = 206 ∧
    (partial_response ⟨data, 0, false⟩ start (end_ : Int) data.length cs mime).contentRange
      = some ("bytes " ++ toString start ++ "-" ++ toString (end_ : Int)
          ++ "/" ++ toString data.length) ∧
    (partial_response ⟨data, 0, false⟩ start (end_ : Int) data.length cs mime).contentLength
      = (end_ : Int) - (start : Int) + 1 ∧
    (partial_response ⟨data, 0, false⟩ start (end_ : Int) data.length cs mime).body.flatten
      = (data.drop start).take (end_ - start + 1) ∧
    (partial_response ⟨data, 0, false⟩ start (end_ : Int) data.length cs mime).body.flatten.length
      = end_ - start + 1 := by
  have hb : (partial_response ⟨data, 0, false⟩ start (end_ : Int) data.length cs
      mime).body.flatten = (data.drop start).take (end_ - start + 1) := by
    show (generateAux cs (data.length + 1) ((end_ : Int) - (start : Int) + 1)
        ⟨data, start, false⟩).1.flatten = (data.drop start).take (end_ - start + 1)
    rw [generateAux_flatten cs hcs (data.length + 1) ((end_ : Int) - (start : Int) + 1)
      ⟨data, start, false⟩ (by omega) (by simp)]
    congr 1
    omega
  refine ⟨rfl, rfl, rfl, hb, ?_⟩
  rw [hb, List.length_take, List.length_drop]
  omega

theorem partial_response_correct_witness :
    (partial_response ⟨[10, 20, 30, 40, 50], 0, false⟩ 1 ((3 : Nat) : Int)
        ([10, 20, 30, 40, 50] : List Nat).length 2 "video/mp4").status = 206 ∧
    (partial_response ⟨[10, 20, 30, 40, 50], 0, false⟩ 1 ((3 : Nat) : Int)
        ([10, 20, 30, 40, 50] : List Nat).length 2 "video/mp4").contentRange
      = some ("bytes " ++ toString 1 ++ "-" ++ toString ((3 : Nat) : Int)
          ++ "/" ++ toString ([10, 20, 30, 40, 50] : List Nat).length) ∧
    (partial_response ⟨[10, 20, 30, 40, 50], 0, false⟩ 1 ((3 : Nat) : Int)
        ([10, 20, 30, 40, 50] : List Nat).length 2 "video/mp4").contentLength
      = ((3 : Nat) : Int) - ((1 : Nat) : Int) + 1 ∧
    (partial_response ⟨[10, 20, 30, 40, 50], 0, false⟩ 1 ((3 : Nat) : Int)
        ([10, 20, 30, 40, 50] : List Nat).length 2 "video/mp4").body.flatten
      = (([10, 20, 30, 40, 50] : List Nat).drop 1).take (3 - 1 + 1) ∧
    (partial_response ⟨[10, 20, 30, 40, 50], 0, false⟩ 1 ((3 : Nat) : Int)
        ([10, 20, 30, 40, 50] : List Nat).length 2 "video/mp4").body.flatten.length
      = 3 - 1 + 1 :=
  partial_response_correct [10, 20, 30, 40, 50] 1 3 2 "video/mp4"
    (by decide) (by decide) (by decide)

end VideoStreamer

namespace VideoStreamer

/-- Claim C5: a request with no Range header on an existing resource
gets status 200, headers `Content-Type`, `Accept-Ranges: bytes`,
`Content-Length = byte_size` and `Cache-Control: public, max-age=86400`,
and its body chunks concatenated are the entire resource,
byte-for-byte.  (The history-write success flag and the disk contents
are irrelevant to the response.) -/
theorem stream_video_no_range (disk : Disk) (data : List Nat)
    (fn now mime : String) (wOk : Bool) :
    ∃ r : PyResponse,
      (stream_video disk (some data) fn now mime wOk none).1
        = StreamOutcome.streamed r ∧
      r.status = 200 ∧
      r.contentType = mime ∧
      r.acceptRanges = "bytes" ∧
      r.contentLength = (data.length : Int) ∧
      r.cacheControl = "public, max-age=86400" ∧
      r.body.flatten = data := by
  refine ⟨full_response ⟨data, 0, false⟩ data.length Config.CHUNK_SIZE mime,
    rfl, rfl, rfl, rfl, rfl, rfl, ?_⟩
  show (generateAux Config.CHUNK_SIZE (data.length + 1) (data.length : Int)
      ⟨data, 0, false⟩).1.flatten = data
  rw [generateAux_flatten Config.CHUNK_SIZE (by norm_num [Config.CHUNK_SIZE])
    (data.length + 1) (data.length : Int) ⟨data, 0, false⟩ (by omega) (by simp)]
  simp

end VideoStreamer

namespace VideoStreamer

/-- Claim C6: for every range with `0 <= start <= end`, the body never
yields more than `end - start + 1` bytes and never touches a byte past
offset `end` — the final cursor position is at most `end + 1` — even
when the source holds more data than the declared range; the full-body
path is likewise bounded by its declared `total`.  The `remaining`
counter, not source EOF, bounds production. -/
theorem body_production_bounded (file : FileHandle) (start end_ total cs : Nat)
    (mime : String) (hcs : 1 ≤ cs) (hse : start ≤ end_) :
    (partial_response file start (end_ : Int) total cs mime).body.flatten
      = (file.data.drop start).take (end_ - start + 1) ∧
    (partial_response file start (end_ : Int) total cs mime).body.flatten.length
      ≤ end_ - start + 1 ∧
    (partial_response file start (end_ : Int) total cs mime).fileAfter.pos
      ≤ end_ + 1 ∧
    (full_response file total cs mime).body.flatten.length ≤ total := by
  have hb : (partial_response file start (end_ : Int) total cs mime).body.flatten
      = (file.data.drop start).take (end_ - start + 1) := by
    show (generateAux cs (file.data.length + 1) ((end_ : Int) - (start : Int) + 1)
        { file with pos := start }).1.flatten
      = (file.data.drop start).take (end_ - start + 1)
    rw [generateAux_flatten cs hcs (file.data.length + 1)
      ((end_ : Int) - (start : Int) + 1) { file with pos := start } (by omega) (by simp)]
    congr 1
    omega
  have hlen : (partial_response file start (end_ : Int) total cs mime).body.flatten.length
      ≤ end_ - start + 1 := by
    rw [hb]
    exact List.length_take_le _ _
  refine ⟨hb, hlen, ?_, ?_⟩
  · have hpos := (generateAux_handle cs (file.data.length + 1)
      ((end_ : Int) - (start : Int) + 1) { file with pos := start }).2.2
    show (generateAux cs (file.data.length + 1) ((end_ : Int) - (start : Int) + 1)
        { file with pos := start }).2.pos ≤ end_ + 1
    rw [hpos, generateAux_flatten cs hcs (file.data.length + 1)
      ((end_ : Int) - (start : Int) + 1) { file with pos := start } (by omega) (by simp)]
    simp only [List.length_take, List.length_drop]
    omega
  · show (generateAux cs (file.data.length + 1) (total : Int) file).1.flatten.length ≤ total
    rw [generateAux_flatten cs hcs (file.data.length + 1) (total : Int) file
      (by omega) (by simp)]
    simp only [Int.toNat_natCast]
    exact List.length_take_le _ _

theorem body_production_bounded_witness :
    (partial_response ⟨[1, 2, 3], 0, false⟩ 1 ((7 : Nat) : Int) 3 1 "m").body.flatten
      = (([1, 2, 3] : List Nat).drop 1).take (7 - 1 + 1) ∧
    (partial_response ⟨[1, 2, 3], 0, false⟩ 1 ((7 : Nat) : Int) 3 1 "m").body.flatten.length
      ≤ 7 - 1 + 1 ∧
    (partial_response ⟨[1, 2, 3], 0, false⟩ 1 ((7 : Nat) : Int) 3 1 "m").fileAfter.pos
      ≤ 7 + 1 ∧
    (full_response ⟨[1, 2, 3], 0, false⟩ 3 1 "m").body.flatten.length ≤ 3 :=
  body_production_bounded ⟨[1, 2, 3], 0, false⟩ 1 7 3 1 "m" (by decide) (by decide)

/-- Claim C7: chunk size changes only the granularity of the chunks,
never the delivered content — for any two positive chunk sizes the
concatenated bodies of the same range are identical. -/
theorem chunk_size_invariance (file : FileHandle) (start end_ total : Nat)
    (mime : String) (c₁ c₂ : Nat) (h1 : 1 ≤ c₁) (h2 : 1 ≤ c₂) (hse : start ≤ end_) :
    (partial_response file start (end_ : Int) total c₁ mime).body.flatten
      = (partial_response file start (end_ : Int) total c₂ mime).body.flatten := by
  show (generateAux c₁ (file.data.length + 1) ((end_ : Int) - (start : Int) + 1)
      { file with pos := start }).1.flatten
    = (generateAux c₂ (file.data.length + 1) ((end_ : Int) - (start : Int) + 1)
      { file with pos := start }).1.flatten
  rw [generateAux_flatten c₁ h1 (file.data.length + 1)
      ((end_ : Int) - (start : Int) + 1) { file with pos := start } (by omega) (by simp),
    generateAux_flatten c₂ h2 (file.data.length + 1)
      ((end_ : Int) - (start : Int) + 1) { file with pos := start } (by omega) (by simp)]

theorem chunk_size_invariance_witness :
    (partial_response ⟨[1, 2, 3, 4, 5, 6], 0, false⟩ 0 ((3 : Nat) : Int) 6 1 "m").body.flatten
      = (partial_response ⟨[1, 2, 3, 4, 5, 6], 0, false⟩ 0 ((3 : Nat) : Int) 6 1000 "m").body.flatten :=
  chunk_size_invariance ⟨[1, 2, 3, 4, 5, 6], 0, false⟩ 0 3 6 "m" 1 1000
    (by decide) (by decide) (by decide)

end VideoStreamer

namespace VideoStreamer

/-- Claim C8: range parsing clamps a too-large end to `byte_size - 1`
and resolves an open-ended range to end of file: `bytes=0-99` against
50 bytes gives `[0, 49]`, and `bytes=10-` against 1000 bytes gives
`[10, 999]`. -/
theorem parse_range_clamps :
    parseRange "bytes=0-99" 50 = some (0, 49) ∧
    parseRange "bytes=10-" 1000 = some (10, 999) := by
  decide

/-- Claim C1 counterexample: for a 50-byte resource and the header
`bytes=100-200` (start past EOF), `stream_video` does not answer 416
with `Content-Range: bytes */50`; it answers 206 with
`Content-Range: bytes 100-49/50` (and an empty body). -/
theorem unsat_range_counterexample :
    outStatus (stream_video ⟨[], "", ""⟩ (some (List.replicate 50 7)) "v.mp4" "t"
        "video/mp4" true (some "bytes=100-200")).1 = some 206 ∧
    outContentRange (stream_video ⟨[], "", ""⟩ (some (List.replicate 50 7)) "v.mp4" "t"
        "video/mp4" true (some "bytes=100-200")).1 = some "bytes 100-49/50" ∧
    outBodyJoin (stream_video ⟨[], "", ""⟩ (some (List.replicate 50 7)) "v.mp4" "t"
        "video/mp4" true (some "bytes=100-200")).1 = some [] := by
  decide

/-- An empty Range header never reaches the int parse: on `""` the
`replace` leaves nothing and `split('-')` yields a single empty piece,
so the 2-tuple unpacking would raise — but `stream_video` never gets
there, since `if range_header:` is already falsy on `""`. -/
theorem parseRange_empty (n : Nat) : parseRange "" n = none := rfl

/-- Claim C1 amended: `stream_video` performs no satisfiability check
at all.  Whenever the Range header parses to a start at or past EOF,
the route still answers 206 with `Content-Range: bytes
{start}-{end}/{byte_size}` (where `end` is the clamped value, below
`start`) and an empty body — never 416 with `Content-Range: bytes
*/{byte_size}`. -/
theorem unsat_range_served_206 (disk : Disk) (data : List Nat)
    (fn now mime : String) (wOk : Bool) (h : String) (bs : Nat) (be : Int)
    (hp : parseRange h data.length = some (bs, be)) (hbs : data.length ≤ bs) :
    ∃ r : PyResponse,
      (stream_video disk (some data) fn now mime wOk (some h)).1
        = StreamOutcome.streamed r ∧
      r.status = 206 ∧
      r.body = [] ∧
      r.contentRange = some ("bytes " ++ toString bs ++ "-" ++ toString be
        ++ "/" ++ toString data.length) := by
  have he : h ≠ "" := by
    intro he
    rw [he, parseRange_empty] at hp
    cases hp
  refine ⟨partial_response ⟨data, 0, false⟩ bs be data.length Config.CHUNK_SIZE mime,
    ?_, rfl, ?_, rfl⟩
  · simp only [stream_video, he, if_false, hp]
  · show (generateAux Config.CHUNK_SIZE (data.length + 1) (be - (bs : Int) + 1)
        ⟨data, bs, false⟩).1 = []
    rw [generateAux_eof Config.CHUNK_SIZE (data.length + 1) (be - (bs : Int) + 1)
      ⟨data, bs, false⟩ hbs]

theorem unsat_range_served_206_witness :
    ∃ r : PyResponse,
      (stream_video ⟨[], "", ""⟩ (some (List.replicate 50 7)) "v.mp4" "t" "video/mp4"
          true (some "bytes=100-200")).1 = StreamOutcome.streamed r ∧
      r.status = 206 ∧
      r.body = [] ∧
      r.contentRange = some ("bytes " ++ toString 100 ++ "-" ++ toString (49 : Int)
        ++ "/" ++ toString (List.replicate 50 7 : List Nat).length) :=
  unsat_range_served_206 ⟨[], "", ""⟩ (List.replicate 50 7) "v.mp4" "t" "video/mp4"
    true "bytes=100-200" 100 49 (by decide) (by decide)

/-- Claim C3 counterexample: a malformed Range header (wrong unit:
`chars=0-10`) is not treated as absent; the parse raises, the catch-all
handler answers 500, and no 200 full-body response is produced. -/
theorem malformed_range_counterexample :
    outIsError (stream_video ⟨[], "", ""⟩ (some [1, 2, 3]) "v.mp4" "t" "video/mp4"
        true (some "chars=0-10")).1 = true ∧
    outStatus (stream_video ⟨[], "", ""⟩ (some [1, 2, 3]) "v.mp4" "t" "video/mp4"
        true (some "chars=0-10")).1 = none := by
  decide

/-- Claim C3 amended: the malformed Range headers the claim enumerates
are not treated as absent — a wrong unit (`chars=0-10`), a non-numeric
bound (`bytes=abc-def`) and multiple comma-separated ranges
(`bytes=0-10,20-30`) each make the `replace`/`split('-')`/`int` parse
raise `ValueError`, which the route's catch-all `except` turns into
HTTP 500 with a JSON error body instead of the full-body 200 path.
The one lenient case is a present-but-empty `Range:` header: `""` is
falsy under the source's `if range_header:` test, so it alone is
treated as absent and served the full body with status 200. -/
theorem malformed_range_errors :
    (outIsError (stream_video ⟨[], "", ""⟩ (some [1, 2, 3]) "v.mp4" "t" "video/mp4"
        true (some "chars=0-10")).1 = true) ∧
    (outIsError (stream_video ⟨[], "", ""⟩ (some [1, 2, 3]) "v.mp4" "t" "video/mp4"
        true (some "bytes=abc-def")).1 = true) ∧
    (outIsError (stream_video ⟨[], "", ""⟩ (some [1, 2, 3]) "v.mp4" "t" "video/mp4"
        true (some "bytes=0-10,20-30")).1 = true) ∧
    (outStatus (stream_video ⟨[], "", ""⟩ (some [1, 2, 3]) "v.mp4" "t" "video/mp4"
        true (some "")).1 = some 200) ∧
    (outBodyJoin (stream_video ⟨[], "", ""⟩ (some [1, 2, 3]) "v.mp4" "t" "video/mp4"
        true (some "")).1 = some [1, 2, 3]) := by
  decide

end VideoStreamer

namespace VideoStreamer

/-- Claim C4 counterexample: a normally completed streaming request
(no Range, body exhausted) leaves its file handle open — the handle is
not released on this exit path, contradicting the claim that every exit
path closes it. -/
theorem handle_leak_counterexample :
    outFileClosed (stream_video ⟨[], "", ""⟩ (some [1, 2, 3]) "v.mp4" "t" "video/mp4"
        true none).1 = some false := by
  decide

/-- Claim C4 amended: `stream_video` and the response generators
contain no `close()` at all, so the handle opened for a response is
never released by the streaming code — after the body sequence is
exhausted it is still open on every path; reclamation is left to the
garbage collector. -/
theorem handle_never_closed (disk : Disk) (data : List Nat) (fn now mime : String)
    (wOk : Bool) (rh : Option String) (r : PyResponse)
    (hr : (stream_video disk (some data) fn now mime wOk rh).1
      = StreamOutcome.streamed r) :
    r.fileAfter.closed = false := by
  cases rh with
  | none =>
    simp only [stream_video] at hr
    injection hr with hq
    subst hq
    show (generateAux Config.CHUNK_SIZE (data.length + 1) (data.length : Int)
        ⟨data, 0, false⟩).2.closed = false
    exact (generateAux_handle Config.CHUNK_SIZE (data.length + 1) (data.length : Int)
      ⟨data, 0, false⟩).2.1
  | some h =>
    by_cases he : h = ""
    · simp only [stream_video, he, if_true] at hr
      simp at hr
      subst hr
      show (generateAux Config.CHUNK_SIZE (data.length + 1) (data.length : Int)
          ⟨data, 0, false⟩).2.closed = false
      exact (generateAux_handle Config.CHUNK_SIZE (data.length + 1) (data.length : Int)
        ⟨data, 0, false⟩).2.1
    · rcases hps : parseRange h data.length with _ | ⟨bs, be⟩
      · simp only [stream_video, he, hps] at hr
        simp [he] at hr
      · simp only [stream_video, he, hps] at hr
        simp only [he, if_false] at hr
        injection hr with hq
        subst hq
        show (generateAux Config.CHUNK_SIZE (data.length + 1) (be - (bs : Int) + 1)
            ⟨data, bs, false⟩).2.closed = false
        exact (generateAux_handle Config.CHUNK_SIZE (data.length + 1) (be - (bs : Int) + 1)
          ⟨data, bs, false⟩).2.1

theorem handle_never_closed_witness :
    (full_response ⟨[1, 2, 3], 0, false⟩ 3 Config.CHUNK_SIZE "video/mp4").fileAfter.closed
      = false :=
  handle_never_closed ⟨[], "", ""⟩ [1, 2, 3] "v.mp4" "t" "video/mp4" true none
    (full_response ⟨[1, 2, 3], 0, false⟩ 3 Config.CHUNK_SIZE "video/mp4") rfl

end VideoStreamer

namespace VideoStreamer

/-- Claim C9: body production terminates for every range and source.
The loop yields nothing once the `remaining` counter is zero; with the
cursor at or past EOF a read returns no data and the loop stops at once
whatever `remaining` says (premature EOF ends the stream rather than
hanging); and any fuel of at least `data.length + 1 - pos` iterations
gives the identical result — the loop genuinely completes within
finitely many iterations. -/
theorem generate_terminates (cs fuel f₁ f₂ : Nat) (r : Int) (h : FileHandle) :
    (generateAux cs fuel 0 h = ([], h)) ∧
    (h.data.length ≤ h.pos → generateAux cs (fuel + 1) r h = ([], h)) ∧
    (h.data.length + 1 - h.pos ≤ f₁ → h.data.length + 1 - h.pos ≤ f₂ →
      generateAux cs f₁ r h = generateAux cs f₂ r h) := by
  refine ⟨?_, ?_, ?_⟩
  · cases fuel with
    | zero => rfl
    | succ n => simp [generateAux]
  · intro hp
    exact generateAux_eof cs (fuel + 1) r h hp
  · intro h1 h2
    exact generateAux_fuel_indep cs f₁ f₂ r h h1 h2

theorem generate_terminates_witness :
    (generateAux 1 3 0 ⟨[5, 6], 2, false⟩ = ([], ⟨[5, 6], 2, false⟩)) ∧
    (generateAux 1 (3 + 1) 7 ⟨[5, 6], 2, false⟩ = ([], ⟨[5, 6], 2, false⟩)) ∧
    (generateAux 1 1 7 ⟨[5, 6], 2, false⟩ = generateAux 1 5 7 ⟨[5, 6], 2, false⟩) :=
  ⟨(generate_terminates 1 3 1 5 7 ⟨[5, 6], 2, false⟩).1,
    (generate_terminates 1 3 1 5 7 ⟨[5, 6], 2, false⟩).2.1 (by decide),
    (generate_terminates 1 3 1 5 7 ⟨[5, 6], 2, false⟩).2.2 (by decide) (by decide)⟩

/-- Claim C10: a streaming request for an existing file `fn` leaves the
comments and playlists stores untouched, updates exactly the history
entry for `fn` to the request timestamp (other keys keep their values)
when the write succeeds, changes nothing when the `save_json_file`
write fails, and the streaming outcome is the same whether or not that
write succeeds — a history-write failure never fails the response.  (In
the source the history write happens before the file is even opened,
so it is independent of body production.) -/
theorem stream_video_history_frame (disk : Disk) (data : List Nat)
    (fn now mime : String) (wOk : Bool) (rh : Option String) :
    ((stream_video disk (some data) fn now mime wOk rh).2.comments_file
      = disk.comments_file) ∧
    ((stream_video disk (some data) fn now mime wOk rh).2.playlists_file
      = disk.playlists_file) ∧
    ((stream_video disk (some data) fn now mime true rh).2.watch_history
      = dictSet disk.watch_history fn now) ∧
    (List.lookup fn (dictSet disk.watch_history fn now) = some now) ∧
    (∀ k, k ≠ fn → List.lookup k (dictSet disk.watch_history fn now)
      = List.lookup k disk.watch_history) ∧
    ((stream_video disk (some data) fn now mime false rh).2.watch_history
      = disk.watch_history) ∧
    ((stream_video disk (some data) fn now mime false rh).1
      = (stream_video disk (some data) fn now mime true rh).1) := by
  refine ⟨?_, ?_, ?_, ?_, ?_, ?_, ?_⟩
  · rw [stream_video_disk]
    cases wOk <;> rfl
  · rw [stream_video_disk]
    cases wOk <;> rfl
  · rw [stream_video_disk]
    rfl
  · exact dictSet_lookup_self disk.watch_history fn now
  · intro k hk
    exact dictSet_lookup_ne disk.watch_history k fn now hk
  · rw [stream_video_disk]
    rfl
  · exact stream_video_fst_wOk disk data fn now mime false rh

theorem stream_video_history_frame_witness :
    ((stream_video ⟨[("a.mp4", "t0")], "cm", "pl"⟩ (some [1, 2]) "v.mp4" "t1" "m"
        true none).2.comments_file = "cm") ∧
    ((stream_video ⟨[("a.mp4", "t0")], "cm", "pl"⟩ (some [1, 2]) "v.mp4" "t1" "m"
        true none).2.playlists_file = "pl") ∧
    ((stream_video ⟨[("a.mp4", "t0")], "cm", "pl"⟩ (some [1, 2]) "v.mp4" "t1" "m"
        true none).2.watch_history = dictSet [("a.mp4", "t0")] "v.mp4" "t1") ∧
    (List.lookup "v.mp4" (dictSet [("a.mp4", "t0")] "v.mp4" "t1") = some "t1") ∧
    (List.lookup "a.mp4" (dictSet [("a.mp4", "t0")] "v.mp4" "t1")
      = List.lookup "a.mp4" [("a.mp4", "t0")]) ∧
    ((stream_video ⟨[("a.mp4", "t0")], "cm", "pl"⟩ (some [1, 2]) "v.mp4" "t1" "m"
        false none).2.watch_history = [("a.mp4", "t0")]) ∧
    ((stream_video ⟨[("a.mp4", "t0")], "cm", "pl"⟩ (some [1, 2]) "v.mp4" "t1" "m"
        false none).1
      = (stream_video ⟨[("a.mp4", "t0")], "cm", "pl"⟩ (some [1, 2]) "v.mp4" "t1" "m"
        true none).1) :=
  ⟨(stream_video_history_frame ⟨[("a.mp4", "t0")], "cm", "pl"⟩ [1, 2] "v.mp4" "t1" "m"
      true none).1,
    (stream_video_history_frame ⟨[("a.mp4", "t0")], "cm", "pl"⟩ [1, 2] "v.mp4" "t1" "m"
      true none).2.1,
    (stream_video_history_frame ⟨[("a.mp4", "t0")], "cm", "pl"⟩ [1, 2] "v.mp4" "t1" "m"
      true none).2.2.1,
    (stream_video_history_frame ⟨[("a.mp4", "t0")], "cm", "pl"⟩ [1, 2] "v.mp4" "t1" "m"
      true none).2.2.2.1,
    (stream_video_history_frame ⟨[("a.mp4", "t0")], "cm", "pl"⟩ [1, 2] "v.mp4" "t1" "m"
      true none).2.2.2.2.1 "a.mp4" (by decide),
    (stream_video_history_frame ⟨[("a.mp4", "t0")], "cm", "pl"⟩ [1, 2] "v.mp4" "t1" "m"
      true none).2.2.2.2.2.1,
    (stream_video_history_frame ⟨[("a.mp4", "t0")], "cm", "pl"⟩ [1, 2] "v.mp4" "t1" "m"
      true none).2.2.2.2.2.2⟩

end VideoStreamer
